import Mathlib

/-!
Verification development for the GesonelBot retrieval-augmented QA pipeline.

The Python modules under `gesonelbot/core` are shallowly embedded here:
pure computations become Lean functions on `List Char` strings; effectful
collaborators (filesystem, vector store, language-model backends, threads)
become explicit environment records whose fields give the outcome of each
external call, so that every control-flow branch of the source is mirrored
by a branch of the Lean definition.
-/

namespace GesonelBot

/-- Python strings are modelled as lists of characters. -/
abbrev Str := List Char

/-- The whitespace characters recognised by Python's `str.strip()` / `\s`
(ASCII whitespace plus the no-break space). -/
def isPySpace (c : Char) : Bool :=
  c == ' ' || c == '\t' || c == '\n' || c == '\r' || c == '\x0b' || c == '\x0c' || c == ' '

/-- Python `str.lower()` restricted to the ASCII and Latin-1 letter ranges
(covers every character appearing in the greeting patterns and messages). -/
def pyLower (c : Char) : Char :=
  if 'A' ≤ c && c ≤ 'Z' then Char.ofNat (c.toNat + 32)
  else if 0xC0 ≤ c.toNat && c.toNat ≤ 0xDE && c.toNat != 0xD7 then Char.ofNat (c.toNat + 32)
  else c

/-- Python `str.strip()`: remove whitespace from both ends. -/
def pyStrip (s : Str) : Str :=
  ((s.dropWhile isPySpace).reverse.dropWhile isPySpace).reverse

/-- Membership test used to model Python `startswith`. -/
def startsWithL : Str → Str → Bool
  | [], _ => true
  | _ :: _, [] => false
  | p :: ps, c :: cs => p == c && startsWithL ps cs

/-- Decimal rendering of a natural number, used for the Python f-strings
`Documento {i+1}` and `Fonte {i+1}`. -/
def natStr (n : Nat) : Str := (Nat.repr n).data

theorem pyStrip_eq_nil_iff (s : Str) : pyStrip s = [] ↔ ∀ c ∈ s, isPySpace c := by
  unfold pyStrip
  rw [List.reverse_eq_nil_iff, List.dropWhile_eq_nil_iff]
  constructor
  · intro h c hc
    have hsplit := List.takeWhile_append_dropWhile (p := isPySpace) (l := s)
    rw [← hsplit] at hc
    rcases List.mem_append.mp hc with h1 | h1
    · exact List.mem_takeWhile_imp h1
    · exact h c (List.mem_reverse.mpr h1)
  · intro h c hc
    have hc' : c ∈ s.dropWhile isPySpace := List.mem_reverse.mp hc
    have hsplit := List.takeWhile_append_dropWhile (p := isPySpace) (l := s)
    have : c ∈ s := by
      rw [← hsplit]
      exact List.mem_append.mpr (Or.inr hc')
    exact h c this

theorem pyLower_of_space {c : Char} (h : isPySpace c = true) : pyLower c = c := by
  simp only [isPySpace, Bool.or_eq_true, beq_iff_eq] at h
  rcases h with (((((h | h) | h) | h) | h) | h) | h <;> (subst h; decide)

/-- Word characters for the `\b` assertion of Python's `re` module
(`[a-zA-Z0-9_]` plus the Latin-1 letters, which cover the accented
Portuguese letters used by the greeting patterns). -/
def isWordChar (c : Char) : Bool :=
  c.isAlphanum || c == '_' ||
    (0xC0 ≤ c.toNat && c.toNat ≤ 0xFF && c.toNat != 0xD7 && c.toNat != 0xF7)

/-- Word-character test on the optional character before the current
position (`none` at the start of the string). -/
def isWordO : Option Char → Bool
  | none => false
  | some c => isWordChar c

/-- Word-character test on the first character after the current position
(`false` at the end of the string). -/
def headWordB : Str → Bool
  | [] => false
  | c :: _ => isWordChar c

/-- Abstract syntax of the regular-expression fragment used by
`GREETING_PATTERNS`: literals, alternation, concatenation, a starred
character class (for `\s*` and `\.+`), the `\b` word boundary, and the
`^` / `$` anchors of `re.search` without `MULTILINE`. -/
inductive Rx where
  | eps
  | chr (c : Char)
  | alt (a b : Rx)
  | cat (a b : Rx)
  | starCls (p : Char → Bool)
  | wb
  | bos
  | eos

/-- States reachable by `\s*`-style starred classes: consume any prefix of
characters satisfying `p`, tracking the last consumed character. -/
def starMatches (p : Char → Bool) : Option Char → Str → List (Option Char × Str)
  | prev, [] => [(prev, [])]
  | prev, x :: xs => (prev, x :: xs) :: (if p x then starMatches p (some x) xs else [])

/-- All states `(last consumed character, remaining input)` reachable by
matching `r` at the current position; `prev` is the character just before
the position (`none` at the start of the whole string). -/
def matchesFrom : Rx → Option Char → Str → List (Option Char × Str)
  | .eps, prev, s => [(prev, s)]
  | .chr _, _, [] => []
  | .chr c, _, x :: xs => if x = c then [(some x, xs)] else []
  | .alt a b, prev, s => matchesFrom a prev s ++ matchesFrom b prev s
  | .cat a b, prev, s => (matchesFrom a prev s).flatMap (fun st => matchesFrom b st.1 st.2)
  | .starCls p, prev, s => starMatches p prev s
  | .wb, prev, s => if isWordO prev != headWordB s then [(prev, s)] else []
  | .bos, prev, s => match prev with | none => [(none, s)] | some _ => []
  | .eos, prev, s => if s = [] ∨ s = ['\n'] then [(prev, s)] else []

/-- Boolean emptiness test on match-state lists. -/
def nonemptyB : List (Option Char × Str) → Bool
  | [] => false
  | _ :: _ => true

/-- `re.search` semantics: try to match `r` at every position of the
remaining input, remembering the character before the position. -/
def searchFrom (r : Rx) : Option Char → Str → Bool
  | prev, [] => nonemptyB (matchesFrom r prev [])
  | prev, c :: s => nonemptyB (matchesFrom r prev (c :: s)) || searchFrom r (some c) s

/-- Unanchored search over a whole string, as `re.search(pattern, text)`. -/
def rxSearch (r : Rx) (s : Str) : Bool := searchFrom r none s

/-- A literal word as a regex (concatenation of its characters). -/
def lit (w : Str) : Rx := w.foldr (fun c r => Rx.cat (.chr c) r) .eps

/-- The last character of `a`, or `prev` when `a` is empty: the `prev`
value after skipping over `a`. -/
def lastO (prev : Option Char) (a : Str) : Option Char :=
  a.foldl (fun _ c => some c) prev

/-- Pattern `x\s*y` inside the greeting patterns. -/
def rxWordPair (a b : String) : Rx :=
  .cat (lit a.data) (.cat (.starCls isPySpace) (lit b.data))

/-- `GREETING_PATTERNS[0]`: `\b(?:olá|ola|oi|e aí|hello|hi|hey)\b`. -/
def P1 : Rx :=
  .cat .wb (.cat
    (.alt (lit "olá".data) (.alt (lit "ola".data) (.alt (lit "oi".data)
      (.alt (lit "e aí".data) (.alt (lit "hello".data)
        (.alt (lit "hi".data) (lit "hey".data)))))))
    .wb)

/-- `GREETING_PATTERNS[1]`: `\b(?:bom\s*dia|boa\s*tarde|boa\s*noite)\b`. -/
def P2 : Rx :=
  .cat .wb (.cat
    (.alt (rxWordPair "bom" "dia") (.alt (rxWordPair "boa" "tarde") (rxWordPair "boa" "noite")))
    .wb)

/-- `GREETING_PATTERNS[2]`: `\b(?:tudo\s*bem|como\s*vai|como\s*está)\b`. -/
def P3 : Rx :=
  .cat .wb (.cat
    (.alt (rxWordPair "tudo" "bem") (.alt (rxWordPair "como" "vai") (rxWordPair "como" "está")))
    .wb)

/-- `GREETING_PATTERNS[3]`: `^(?:\.+|oi|hey)$`. -/
def P4 : Rx :=
  .cat .bos (.cat
    (.alt (.cat (.chr '.') (.starCls (fun c => c == '.')))
      (.alt (lit "oi".data) (lit "hey".data)))
    .eos)

/-- The `GREETING_PATTERNS` list of `qa_engine.py`. -/
def GREETING_PATTERNS : List Rx := [P1, P2, P3, P4]

/-- `qa_engine.is_greeting`: lower-case and strip the text, then search
each greeting pattern. -/
def is_greeting (text : Str) : Bool :=
  GREETING_PATTERNS.any (fun r => rxSearch r (pyStrip (text.map pyLower)))

theorem nonemptyB_eq_true {l : List (Option Char × Str)} (h : l ≠ []) : nonemptyB l = true := by
  cases l with
  | nil => exact absurd rfl h
  | cons x xs => rfl

theorem mem_matchesFrom_cat {a b : Rx} {prev q u : Option Char} {s t v : Str}
    (h1 : (q, t) ∈ matchesFrom a prev s) (h2 : (u, v) ∈ matchesFrom b q t) :
    (u, v) ∈ matchesFrom (.cat a b) prev s := by
  simp only [matchesFrom, List.mem_flatMap]
  exact ⟨(q, t), h1, h2⟩

theorem mem_alt_left {a b : Rx} {prev : Option Char} {s : Str} {x : Option Char × Str}
    (h : x ∈ matchesFrom a prev s) : x ∈ matchesFrom (.alt a b) prev s := by
  simp only [matchesFrom, List.mem_append]
  exact Or.inl h

theorem mem_alt_right {a b : Rx} {prev : Option Char} {s : Str} {x : Option Char × Str}
    (h : x ∈ matchesFrom b prev s) : x ∈ matchesFrom (.alt a b) prev s := by
  simp only [matchesFrom, List.mem_append]
  exact Or.inr h

theorem mem_wb {prev : Option Char} {s : Str} (h : isWordO prev ≠ headWordB s) :
    (prev, s) ∈ matchesFrom .wb prev s := by
  simp only [matchesFrom, bne_iff_ne, ne_eq]
  rw [if_pos h]
  exact List.mem_singleton.mpr rfl

theorem star_one {p : Char → Bool} {c : Char} {rest : Str} (h : p c = true)
    (prev : Option Char) :
    (some c, rest) ∈ matchesFrom (.starCls p) prev (c :: rest) := by
  simp only [matchesFrom, starMatches, h, if_true]
  right
  cases rest with
  | nil => exact List.mem_singleton.mpr rfl
  | cons x xs => exact List.mem_cons_self _ _

theorem lit_matches (w : Str) : ∀ (prev : Option Char) (rest : Str),
    (lastO prev w, rest) ∈ matchesFrom (lit w) prev (w ++ rest) := by
  induction w with
  | nil => intro prev rest; simp [lit, matchesFrom, lastO]
  | cons c w' ih =>
      intro prev rest
      exact mem_matchesFrom_cat (q := some c) (t := w' ++ rest)
        (by simp [lit, matchesFrom]) (ih (some c) rest)

theorem searchFrom_of_split (r : Rx) : ∀ (a : Str) (prev : Option Char) (s : Str),
    matchesFrom r (lastO prev a) s ≠ [] → searchFrom r prev (a ++ s) = true := by
  intro a
  induction a with
  | nil =>
      intro prev s h
      have h' : matchesFrom r prev s ≠ [] := h
      cases s with
      | nil => exact nonemptyB_eq_true h'
      | cons c cs =>
          show (nonemptyB (matchesFrom r prev (c :: cs)) || searchFrom r (some c) cs) = true
          rw [nonemptyB_eq_true h']
          rfl
  | cons c a' ih =>
      intro prev s h
      show (nonemptyB (matchesFrom r prev (c :: (a' ++ s))) || searchFrom r (some c) (a' ++ s)) = true
      rw [ih (some c) s h]
      exact Bool.or_true _

/-- The canned `GREETING_RESPONSES` list of `qa_engine.py`. -/
def GREETING_RESPONSES : List Str :=
  [ "Olá! Estou aqui para ajudar com suas perguntas sobre documentos. Como posso ajudar hoje?".data,
    "Oi! Sou um assistente especializado em analisar documentos. Como posso ser útil?".data,
    "Olá! Tudo bem? Estou disponível para ajudar a encontrar informações nos seus documentos.".data,
    "Bom dia! Estou pronto para responder perguntas com base nos documentos que você carregou.".data ]

/-- `random.choice` modelled by an externally supplied index, reduced
modulo the length of the list. -/
def choice (n : Nat) (l : List Str) : Str := l.getD (n % l.length) []

theorem choice_mem (n : Nat) (l : List Str) (h : l ≠ []) : choice n l ∈ l := by
  have hpos : 0 < l.length := List.length_pos.mpr h
  have hlt : n % l.length < l.length := Nat.mod_lt _ hpos
  unfold choice
  rw [List.getD_eq_getElem?_getD, List.getElem?_eq_getElem hlt]
  exact List.getElem_mem hlt

/-- `RESPONSE_TIMEOUT` of `qa_engine.py` (seconds). -/
def RESPONSE_TIMEOUT : Nat := 60

/-- The fixed apology returned when the generation thread produces no
result within the timeout. -/
def TIMEOUT_MESSAGE : Str :=
  "Desculpe, a geração da resposta está demorando muito tempo. O modelo TinyLlama pode ter dificuldades para processar documentos complexos. Por favor, tente uma pergunta mais simples ou específica.".data

/-- Behaviour of one `llm_manager.generate_response` call executed inside
the worker thread of `generate_response_with_timeout`: it may raise, block
past the deadline, or return an answer text. -/
inductive GenBehavior where
  | raises (msg : Str)
  | timesOut
  | answers (text : Str)
deriving DecidableEq

/-- What `target_function` puts on the result queue before the deadline:
`("success", response)` on normal return, `("error", str(e))` when the
backend call raises, nothing when the call is still running. -/
def targetFunctionPut : GenBehavior → Option (Str × Str)
  | .raises m => some ("error".data, m)
  | .answers t => some ("success".data, t)
  | .timesOut => none

/-- `qa_engine.generate_response_with_timeout`: start the worker on the
given prompt and read the queue with the timeout; `queue.Empty` yields the
apology, an `"error"` tag yields the formatted error string, otherwise the
backend's answer is returned. The worker's behaviour `b` abstracts the
whole `llm_manager.generate_response` call (including any dependence on
the prompt). -/
def generate_response_with_timeout (prompt : Str) (b : GenBehavior) : Str :=
  match prompt, targetFunctionPut b with
  | _, none => TIMEOUT_MESSAGE
  | _, some (tag, r) => if tag = "error".data then "Erro ao gerar resposta: ".data ++ r else r

/-- The two generation backends of `llm_manager.py`. -/
inductive Backend where
  | openai
  | localM
deriving DecidableEq

/-- Outcomes of the external steps of `LLMManager`'s loaders: whether the
`openai` / `ctransformers` imports succeed, whether the API key is
configured, whether the local model file exists, and whether
`AutoModelForCausalLM.from_pretrained` succeeds. -/
structure LLMEnv where
  openaiImportOk : Bool
  apiKeySet : Bool
  ctransImportOk : Bool
  localPathExists : Bool
  localLoadOk : Bool
deriving DecidableEq

/-- The mutable state of `LLMManager`: the configured `model_type` string
and the currently loaded backend (if any). -/
structure LLMState where
  model_type : Str
  current_model : Option Backend
deriving DecidableEq

/-- `LLMManager._load_openai_model`. -/
def loadOpenai (e : LLMEnv) (s : LLMState) : Bool × LLMState :=
  if e.openaiImportOk = false then (false, s)
  else if e.apiKeySet = false then (false, s)
  else (true, { s with current_model := some .openai })

/-- `LLMManager._load_local_model`. -/
def loadLocal (e : LLMEnv) (s : LLMState) : Bool × LLMState :=
  if e.ctransImportOk = false then (false, s)
  else if e.localPathExists = false then (false, s)
  else if e.localLoadOk = false then (false, s)
  else (true, { s with current_model := some .localM })

/-- `LLMManager.load_model`: dispatch on the requested type (defaulting to
the configured one; an empty string argument is falsy in Python and also
falls back); an unrecognized type falls back to the local loader. -/
def load_model (e : LLMEnv) (s : LLMState) (mt : Option Str) : Bool × LLMState :=
  let t := match mt with
    | some u => if u = [] then s.model_type else u
    | none => s.model_type
  if t = "openai".data then loadOpenai e s
  else if t = "local".data then loadLocal e s
  else loadLocal e s

/-- The model-loading phase at the top of `LLMManager.generate_response`
(lines 213-223): when no model is loaded, load the configured one, and if
that fails while the configured type is `"openai"`, retry with the local
backend. Returns the success flag and the resulting state. -/
def generate_response_load (e : LLMEnv) (s : LLMState) : Bool × LLMState :=
  if s.current_model.isSome then (true, s)
  else
    let r1 := load_model e s none
    if r1.1 = false ∧ s.model_type = "openai".data then load_model e r1.2 (some "local".data)
    else r1

/-- The subset of `LLMManager.get_model_info` consulted by the
orchestrator. -/
structure ModelInfo where
  status : Str
  mtype : Str
deriving DecidableEq

/-- `LLMManager.get_model_info`. -/
def get_model_info (s : LLMState) : ModelInfo :=
  match s.current_model with
  | none => ⟨"não carregado".data, s.model_type⟩
  | some .openai => ⟨"carregado".data, "openai".data⟩
  | some .localM => ⟨"carregado".data, "local".data⟩

/-- A LangChain `Document`: page content plus a string-keyed metadata
dictionary (modelled as an association list). -/
structure LCDocument where
  page_content : Str
  metadata : List (Str × Str)
deriving DecidableEq

/-- Outcome of the underlying `retriever.get_relevant_documents` call of
the vector store: it may raise or return a list of documents. -/
inductive SearchOutcome where
  | raises (msg : Str)
  | found (docs : List LCDocument)
deriving DecidableEq

/-- External state of `DocumentRetriever`: whether `_initialize_retriever`
found a vector store at construction, whether the lazy retry succeeds, and
the outcome of the underlying search. -/
structure RetrieverEnv where
  alreadyInit : Bool
  lazyInitOk : Bool
  outcome : SearchOutcome
deriving DecidableEq

/-- `DocumentRetriever.get_relevant_documents`: retry initialization once
when the retriever is absent; return `[]` when it is still absent or the
underlying search raises. -/
def get_relevant_documents (e : RetrieverEnv) : List LCDocument :=
  if (e.alreadyInit || e.lazyInitOk) = false then []
  else match e.outcome with
    | .raises _ => []
    | .found ds => ds

/-- The normalized result items handed to the orchestrator. -/
structure RetrDoc where
  file_name : Option Str
  source : Option Str
  content : Str
deriving DecidableEq

/-- `DocumentRetriever.format_retrieved_documents`: normalize each raw
document, defaulting missing metadata to "Desconhecido". -/
def format_retrieved_documents (ds : List LCDocument) : List RetrDoc :=
  ds.map (fun d =>
    { file_name := some ((d.metadata.lookup "file_name".data).getD "Desconhecido".data),
      source := some ((d.metadata.lookup "source".data).getD "Desconhecido".data),
      content := d.page_content })

/-- `DocumentRetriever.search`: retrieve, short-circuit on the empty
result, otherwise format. -/
def retriever_search (e : RetrieverEnv) : List RetrDoc :=
  let documents := get_relevant_documents e
  if documents = [] then [] else format_retrieved_documents documents

/-- Source information collected for the answer. -/
structure SourceInfo where
  file_name : Str
  source : Str
deriving DecidableEq

/-- The metadata dictionary of an answer (fields absent from a branch's
dict literal are modelled as `false` / `none`). -/
structure AnswerMeta where
  retrieved_documents : Nat
  processing_time_ms : Nat
  greeting_flag : Bool
  model_info : Option ModelInfo
deriving DecidableEq

/-- The structured answer returned by `answer_question`. -/
structure Answer where
  question : Str
  answer : Str
  sources : List SourceInfo
  metadata : AnswerMeta
deriving DecidableEq

/-- Which collaborators a run of `answer_question` invoked. -/
structure Calls where
  retrieverCalled : Bool
  generateCalled : Bool
deriving DecidableEq

/-- Environment of one `answer_question` run: the retriever state, the
generation behaviour, the LLM manager state, the index drawn by
`random.choice`, the configured template name, and the elapsed
wall-clock milliseconds observed at each return point. -/
structure QAEnv where
  retr : RetrieverEnv
  gen : GenBehavior
  llm : LLMState
  randomChoice : Nat
  templateName : Str
  greetElapsedMs : Nat
  elapsedMs : Nat
deriving DecidableEq

/-- Text of the "padrao" prompt template before its `contexts` slot. -/
def T_PADRAO_A : Str :=
  "\nUse apenas as informações fornecidas nos documentos abaixo para responder à pergunta.\nSe a informação não estiver presente nos documentos, diga que não tem informações suficientes para responder.\nNão invente ou suponha informações que não estejam explicitamente nos documentos.\nCite as fontes dos documentos de onde você extraiu as informações.\nMantenha sua resposta curta e direta, com no máximo 3-4 frases.\n\nDocumentos:\n".data

/-- The "padrao" template of `PROMPT_TEMPLATES`, as a format function. -/
def promptPadrao (contexts question : Str) : Str :=
  T_PADRAO_A ++ contexts ++ "\n\nPergunta: ".data ++ question ++ "\n".data

/-- The "conciso" template of `PROMPT_TEMPLATES`. -/
def promptConciso (contexts question : Str) : Str :=
  "\nResponda à pergunta de forma concisa usando apenas os documentos fornecidos.\nDocumentos: ".data
    ++ contexts ++ "\nPergunta: ".data ++ question ++ "\n".data

/-- Text of the "academico" prompt template before its `contexts` slot. -/
def T_ACAD_A : Str :=
  "\nVocê é um assistente acadêmico respondendo a uma pergunta com base em documentos fornecidos.\nUse um tom formal e estruturado, citando apropriadamente as fontes.\nOrganize sua resposta em parágrafos lógicos e inclua uma conclusão.\n\nDocumentos disponíveis:\n".data

/-- The "academico" template of `PROMPT_TEMPLATES`. -/
def promptAcademico (contexts question : Str) : Str :=
  T_ACAD_A ++ contexts ++ "\n\nPergunta: ".data ++ question ++ "\n".data

/-- The `PROMPT_TEMPLATES` registry of `qa_engine.py`. -/
def PROMPT_TEMPLATES : List (Str × (Str → Str → Str)) :=
  [("padrao".data, promptPadrao), ("conciso".data, promptConciso),
   ("academico".data, promptAcademico)]

/-- Template selection: `PROMPT_TEMPLATES.get(name, PROMPT_TEMPLATES["padrao"])`. -/
def renderTemplate (name : Str) (contexts question : Str) : Str :=
  ((PROMPT_TEMPLATES.lookup name).getD promptPadrao) contexts question

/-- `"sep".join(parts)`. -/
def joinSep (sep : Str) : List Str → Str
  | [] => []
  | [x] => x
  | x :: y :: xs => x ++ sep ++ joinSep sep (y :: xs)

/-- The per-document context/source construction of `answer_question`'s
main loop: defaults for missing keys, content stripping, truncation of
long contexts at 1000 characters, and the `DOCUMENTO i:` labelling. -/
def formatDoc (i : Nat) (d : RetrDoc) : Str × SourceInfo :=
  let file_name := d.file_name.getD ("Documento ".data ++ natStr (i + 1))
  let source := d.source.getD ("Fonte ".data ++ natStr (i + 1))
  let content0 := pyStrip d.content
  let content :=
    if 1000 < content0.length then content0.take 1000 ++ "... (conteúdo truncado)".data
    else content0
  ("DOCUMENTO ".data ++ natStr (i + 1) ++ ": ".data ++ file_name ++ "\n".data
     ++ content ++ "\n".data,
   ⟨file_name, source⟩)

/-- `qa_engine.answer_question`: validate the question, short-circuit
greetings, retrieve, and—only when relevant documents exist—assemble the
prompt and invoke generation under the timeout. The second component
records which collaborators were invoked on the taken branch. -/
def answer_question (env : QAEnv) (question : Str) (top_k : Option Nat) : Answer × Calls :=
  if question = [] ∨ (pyStrip question).length = 0 then
    ({ question := question,
       answer := "Por favor, faça uma pergunta válida.".data,
       sources := [],
       metadata := ⟨0, 0, false, none⟩ }, ⟨false, false⟩)
  else if is_greeting question = true then
    ({ question := question,
       answer := choice env.randomChoice GREETING_RESPONSES,
       sources := [],
       metadata := ⟨0, env.greetElapsedMs, true, none⟩ }, ⟨false, false⟩)
  else
    let retrieved_docs := retriever_search env.retr
    if retrieved_docs = [] then
      ({ question := question,
         answer := "Não encontrei informações relevantes para responder a esta pergunta nos documentos carregados.".data,
         sources := [],
         metadata := ⟨0, env.elapsedMs, false, none⟩ }, ⟨true, false⟩)
    else
      let docs := match top_k with | some k => retrieved_docs.take k | none => retrieved_docs
      let pairs := docs.enum.map (fun p => formatDoc p.1 p.2)
      let all_contexts := "\n\n".data ++ joinSep "\n\n".data (pairs.map Prod.fst)
      let prompt := renderTemplate env.templateName all_contexts question
      let answer := generate_response_with_timeout prompt env.gen
      ({ question := question,
         answer := answer,
         sources := pairs.map Prod.snd,
         metadata := ⟨docs.length, env.elapsedMs, false, some (get_model_info env.llm)⟩ },
       ⟨true, true⟩)

/-- Filesystem facts consulted by `validate_file`: existence, regular-file
status, size in bytes, and the `mimetypes.guess_type` result. -/
structure FileEnv where
  pathExists : Bool
  isFile : Bool
  size : Nat
  mime : Option Str
deriving DecidableEq

/-- The keys of `SUPPORTED_MIME_TYPES` in `document_processor.py`. -/
def SUPPORTED_MIME_KEYS : List Str :=
  [ "text/plain".data, "application/pdf".data,
    "application/vnd.openxmlformats-officedocument.wordprocessingml.document".data ]

/-- `document_processor.validate_file`: reject missing paths, non-files,
files over 20 MB, and unsupported (or unguessable) mime types. -/
def validate_file (fe : FileEnv) : Bool × Str :=
  if fe.pathExists = false then (false, "Arquivo não encontrado".data)
  else if fe.isFile = false then (false, "O caminho especificado não é um arquivo".data)
  else if 20 * 1024 * 1024 < fe.size then (false, "Arquivo muito grande (máximo 20MB)".data)
  else match fe.mime with
    | none => (false, "Tipo de arquivo não suportado: None".data)
    | some m =>
        if m ∈ SUPPORTED_MIME_KEYS then (true, "Arquivo válido".data)
        else (false, "Tipo de arquivo não suportado: ".data ++ m)

/-- Outcome of the per-extension text extraction inside
`process_document`: the extractor may raise (caught by the outer
`except`), or produce a text — possibly one of the bracketed error-marker
strings the DOCX/PDF extractors return instead of raising. -/
inductive ExtractOutcome where
  | raises (msg : Str)
  | extracted (text : Str)
deriving DecidableEq

/-- Result dictionary of `process_document` (the fields the claims are
about). -/
structure ProcResult where
  status : Str
  message : Str
  text : Str
deriving DecidableEq

/-- The extensions `process_document` dispatches on. -/
def SUPPORTED_EXTS : List Str := [".txt".data, ".docx".data, ".pdf".data]

/-- `document_processor.process_document`: validate, dispatch extraction by
extension (all three extractors are modelled by the one environment-given
outcome), then classify success by inspecting the extracted text for
emptiness and the `[Erro` / `[Biblioteca` marker prefixes. -/
def process_document (fe : FileEnv) (ext : Str) (exo : ExtractOutcome) : ProcResult :=
  let v := validate_file fe
  if v.1 = false then ⟨"error".data, v.2, []⟩
  else if ext ∈ SUPPORTED_EXTS then
    match exo with
    | .raises m => ⟨"error".data, "Erro ao processar documento: ".data ++ m, []⟩
    | .extracted t =>
        if t = [] ∨ startsWithL "[Erro".data t = true ∨ startsWithL "[Biblioteca".data t = true then
          ⟨"error".data,
           "Falha na extração de texto: ".data ++ (if t = [] then "Texto vazio".data else t),
           []⟩
        else ⟨"success".data, "Documento processado com sucesso".data, t⟩
  else ⟨"error".data, "Formato não suportado: ".data ++ ext, []⟩

/-- Outcome of `RecursiveCharacterTextSplitter.create_documents` inside
`split_text_into_chunks`: the primary splitter may raise or return a chunk
list. -/
inductive SplitOutcome where
  | raises (msg : Str)
  | split (chunks : List LCDocument)
deriving DecidableEq

/-- `document_processor.split_text_into_chunks`: empty or whitespace-only
text yields no chunks; a raising primary splitter is caught and replaced
by a single whole-text fallback chunk. -/
def split_text_into_chunks (so : SplitOutcome) (text : Str) (metadata : List (Str × Str)) :
    List LCDocument :=
  if text = [] ∨ (pyStrip text).length = 0 then []
  else match so with
    | .raises _ => [⟨text, metadata⟩]
    | .split chunks => chunks

/-- External behaviour of the Chroma vector store as used by
`EmbeddingsManager`: a cached in-memory store, the persisted directory
state, and whether the load / append-and-persist / create-and-persist
calls succeed (a `false` models the underlying call raising). -/
structure VSEnv where
  cached : Bool
  dirNonempty : Bool
  loadOk : Bool
  addOk : Bool
  createOk : Bool
deriving DecidableEq

/-- Whether `EmbeddingsManager.get_vector_store` yields a store (the
cached one, or a successful `load_vector_store` of a non-empty persisted
directory). -/
def get_vector_store_some (e : VSEnv) : Bool :=
  e.cached || (e.dirNonempty && e.loadOk)

/-- `EmbeddingsManager.create_vector_store`, reduced to whether the result
`is not None`: `None` for an empty document list or when
`Chroma.from_documents` / `persist` raise. -/
def create_vector_store (e : VSEnv) (documents : List LCDocument) : Bool :=
  if documents = [] then false
  else e.createOk

/-- Which mutation path `add_documents` attempted. -/
inductive VSAction where
  | appendedAndPersisted
  | createdNew
deriving DecidableEq

/-- `EmbeddingsManager.add_documents`: reject empty input; append to and
persist an existing store, converting a raise into `False`; otherwise
create a new persisted store and report whether that produced one. -/
def add_documents (e : VSEnv) (documents : List LCDocument) : Bool × Option VSAction :=
  if documents = [] then (false, none)
  else if get_vector_store_some e = true then (e.addOk, some .appendedAndPersisted)
  else (create_vector_store e documents, some .createdNew)

/-- C1: for every prompt and every behaviour of the generation backend,
the timeout-wrapped call returns (never raises): a raising backend yields
the user-facing error string carrying the exception message, a deadline
miss yields the fixed timeout apology (the default deadline being 60
seconds), and otherwise the backend's answer text is returned. -/
theorem claim_C1 (prompt : Str) (b : GenBehavior) :
    (∀ m, b = .raises m →
      generate_response_with_timeout prompt b = "Erro ao gerar resposta: ".data ++ m) ∧
    (b = .timesOut → generate_response_with_timeout prompt b = TIMEOUT_MESSAGE) ∧
    (∀ t, b = .answers t → generate_response_with_timeout prompt b = t) ∧
    RESPONSE_TIMEOUT = 60 := by
  refine ⟨?_, ?_, ?_, rfl⟩
  · intro m hm
    subst hm
    show (if ("error".data : Str) = "error".data then "Erro ao gerar resposta: ".data ++ m else m)
      = "Erro ao gerar resposta: ".data ++ m
    rw [if_pos rfl]
  · intro hm
    subst hm
    rfl
  · intro t ht
    subst ht
    show (if ("success".data : Str) = "error".data then "Erro ao gerar resposta: ".data ++ t else t)
      = t
    rw [if_neg (by decide)]

/-- Witness for C1 at concrete backend behaviours. -/
theorem claim_C1_witness :
    generate_response_with_timeout "p".data (.raises "boom".data) =
        "Erro ao gerar resposta: ".data ++ "boom".data ∧
    generate_response_with_timeout "p".data .timesOut = TIMEOUT_MESSAGE ∧
    generate_response_with_timeout "p".data (.answers "ok".data) = "ok".data :=
  ⟨(claim_C1 "p".data (.raises "boom".data)).1 "boom".data rfl,
   (claim_C1 "p".data .timesOut).2.1 rfl,
   (claim_C1 "p".data (.answers "ok".data)).2.2.1 "ok".data rfl⟩

/-- C2 counterexample: with the configured type `"openai"`, an
unconfigured API key, and a loadable local model, the load phase of
`generate_response` ends with the local backend active — the manager does
switch backend kinds on its own when the configured backend fails. -/
theorem claim_C2_counterexample :
    (LLMState.mk "openai".data none).model_type = "openai".data ∧
    (loadOpenai ⟨true, false, true, true, true⟩ ⟨"openai".data, none⟩).1 = false ∧
    (generate_response_load ⟨true, false, true, true, true⟩
        ⟨"openai".data, none⟩).2.current_model = some Backend.localM := by
  decide

/-- C2 (amended): `load_model` with no explicit argument loads the OpenAI
backend when the configured type is `"openai"` and the local backend when
it is `"local"`, and a successful loader activates exactly the matching
backend; however, when no model is loaded and the configured `"openai"`
backend fails to load, `generate_response` automatically falls back to
loading the local backend. -/
theorem claim_C2_amended (e : LLMEnv) (s : LLMState) :
    (s.model_type = "openai".data → load_model e s none = loadOpenai e s) ∧
    (s.model_type = "local".data → load_model e s none = loadLocal e s) ∧
    ((loadOpenai e s).1 = true → (loadOpenai e s).2.current_model = some .openai) ∧
    ((loadLocal e s).1 = true → (loadLocal e s).2.current_model = some .localM) ∧
    (s.current_model = none → s.model_type = "openai".data → (load_model e s none).1 = false →
        generate_response_load e s = load_model e (load_model e s none).2 (some "local".data)) := by
  refine ⟨?_, ?_, ?_, ?_, ?_⟩
  · intro h
    unfold load_model
    rw [h]
    rw [if_pos rfl]
  · intro h
    unfold load_model
    rw [h]
    rw [if_neg (by decide), if_pos rfl]
  · intro h
    unfold loadOpenai at h ⊢
    by_cases h1 : e.openaiImportOk = false
    · rw [if_pos h1] at h
      exact Bool.noConfusion h
    · rw [if_neg h1] at h ⊢
      by_cases h2 : e.apiKeySet = false
      · rw [if_pos h2] at h
        exact Bool.noConfusion h
      · rw [if_neg h2]
  · intro h
    unfold loadLocal at h ⊢
    by_cases h1 : e.ctransImportOk = false
    · rw [if_pos h1] at h
      exact Bool.noConfusion h
    · rw [if_neg h1] at h ⊢
      by_cases h2 : e.localPathExists = false
      · rw [if_pos h2] at h
        exact Bool.noConfusion h
      · rw [if_neg h2] at h ⊢
        by_cases h3 : e.localLoadOk = false
        · rw [if_pos h3] at h
          exact Bool.noConfusion h
        · rw [if_neg h3]
  · intro h1 h2 h3
    unfold generate_response_load
    rw [h1]
    show (if (Option.isSome (none : Option Backend)) = true then (true, s)
      else if (load_model e s none).1 = false ∧ s.model_type = "openai".data
        then load_model e (load_model e s none).2 (some "local".data)
        else load_model e s none)
      = load_model e (load_model e s none).2 (some "local".data)
    rw [if_neg (by decide), if_pos ⟨h3, h2⟩]

/-- Witness for C2's amended statement: the dispatch conjunct and the
fallback conjunct at concrete inputs. -/
theorem claim_C2_witness :
    load_model ⟨true, true, true, true, true⟩ ⟨"openai".data, none⟩ none =
        loadOpenai ⟨true, true, true, true, true⟩ ⟨"openai".data, none⟩ ∧
    generate_response_load ⟨true, false, true, true, true⟩ ⟨"openai".data, none⟩ =
        load_model ⟨true, false, true, true, true⟩
          (load_model ⟨true, false, true, true, true⟩ ⟨"openai".data, none⟩ none).2
          (some "local".data) :=
  ⟨(claim_C2_amended ⟨true, true, true, true, true⟩ ⟨"openai".data, none⟩).1 rfl,
   (claim_C2_amended ⟨true, false, true, true, true⟩ ⟨"openai".data, none⟩).2.2.2.2
     rfl rfl (by decide)⟩

/-- C6: `split_text_into_chunks` yields no chunks exactly on empty or
whitespace-only text (given that the primary splitter, when it succeeds on
non-whitespace text, produces at least one chunk), and a raising primary
splitter yields exactly one fallback chunk holding the full text with the
given metadata. -/
theorem claim_C6 (so : SplitOutcome) (text : Str) (metadata : List (Str × Str))
    (hchunks : ∀ cs, so = .split cs → cs ≠ []) :
    (split_text_into_chunks so text metadata = [] ↔ pyStrip text = []) ∧
    (∀ m, so = .raises m → pyStrip text ≠ [] →
        split_text_into_chunks so text metadata = [⟨text, metadata⟩]) := by
  by_cases hc : text = [] ∨ (pyStrip text).length = 0
  · have hstrip : pyStrip text = [] := by
      rcases hc with h | h
      · rw [h]; rfl
      · exact List.length_eq_zero.mp h
    constructor
    · unfold split_text_into_chunks
      rw [if_pos hc]
      exact ⟨fun _ => hstrip, fun _ => rfl⟩
    · intro m _ hne
      exact absurd hstrip hne
  · have hstrip : pyStrip text ≠ [] := by
      intro h
      exact hc (Or.inr (by rw [h]; rfl))
    unfold split_text_into_chunks
    rw [if_neg hc]
    constructor
    · cases so with
      | raises m =>
          exact ⟨fun h => List.noConfusion h, fun h => absurd h hstrip⟩
      | split cs =>
          exact ⟨fun h => absurd h (hchunks cs rfl), fun h => absurd h hstrip⟩
    · intro m hm _
      rw [hm]

/-- Witness for C6: the fallback chunk on a raising splitter, and the
empty result on whitespace-only text. -/
theorem claim_C6_witness :
    split_text_into_chunks (.raises "x".data) "abc".data [] = [⟨"abc".data, []⟩] ∧
    (split_text_into_chunks (.split [⟨"abc".data, []⟩]) "   ".data [] = [] ↔
      pyStrip "   ".data = []) :=
  ⟨(claim_C6 (.raises "x".data) "abc".data []
      (fun _ h => SplitOutcome.noConfusion h)).2 "x".data rfl (by decide),
   (claim_C6 (.split [⟨"abc".data, []⟩]) "   ".data []
      (by intro cs h; cases h; decide)).1⟩

/-- C7: `validate_file` always returns a pair; it validates exactly the
existing regular files within the 20 MB cap whose guessed mime type is
supported, and every rejection carries a non-empty diagnostic reason. -/
theorem claim_C7 (fe : FileEnv) :
    ((validate_file fe).1 = true ↔
      fe.pathExists = true ∧ fe.isFile = true ∧ fe.size ≤ 20 * 1024 * 1024 ∧
        ∃ m, fe.mime = some m ∧ m ∈ SUPPORTED_MIME_KEYS) ∧
    ((validate_file fe).1 = false → (validate_file fe).2 ≠ []) := by
  obtain ⟨pe, isf, sz, mi⟩ := fe
  by_cases hs : 20 * 1024 * 1024 < sz
  all_goals cases pe
  all_goals cases isf
  all_goals rcases mi with _ | m
  all_goals simp only [validate_file]
  all_goals simp [hs, Nat.not_lt.mp, Nat.lt_irrefl]
  all_goals (by_cases hm : m ∈ SUPPORTED_MIME_KEYS)
  all_goals simp [hm]

/-- Witness for C7: a rejected oversized file keeps a diagnostic reason,
and a small supported file validates. -/
theorem claim_C7_witness :
    (validate_file ⟨true, true, 30 * 1024 * 1024, some "text/plain".data⟩).2 ≠ [] ∧
    (validate_file ⟨true, true, 100, some "text/plain".data⟩).1 = true :=
  ⟨(claim_C7 ⟨true, true, 30 * 1024 * 1024, some "text/plain".data⟩).2 (by decide),
   (claim_C7 ⟨true, true, 100, some "text/plain".data⟩).1.mpr
     ⟨rfl, rfl, by decide, "text/plain".data, rfl, by decide⟩⟩

/-- C8: for every non-empty chunk list, `add_documents` appends to and
persists the existing index when one is available, creates a new persisted
index otherwise, and reports failure of either underlying operation as a
`false` return value instead of an exception. -/
theorem claim_C8 (e : VSEnv) (documents : List LCDocument) (h : documents ≠ []) :
    (get_vector_store_some e = false →
        add_documents e documents = (e.createOk, some .createdNew)) ∧
    (get_vector_store_some e = true →
        add_documents e documents = (e.addOk, some .appendedAndPersisted)) := by
  constructor
  · intro hg
    unfold add_documents
    rw [if_neg h, hg, if_neg (by decide)]
    rw [create_vector_store, if_neg h]
  · intro hg
    unfold add_documents
    rw [if_neg h, hg, if_pos rfl]

/-- Witness for C8: creation on a missing index and append on an existing
one, at concrete environments. -/
theorem claim_C8_witness :
    add_documents ⟨false, false, true, true, true⟩ [⟨"c".data, []⟩] =
        (true, some .createdNew) ∧
    add_documents ⟨true, true, true, false, true⟩ [⟨"c".data, []⟩] =
        (false, some .appendedAndPersisted) :=
  ⟨(claim_C8 ⟨false, false, true, true, true⟩ [⟨"c".data, []⟩] (by decide)).1 rfl,
   (claim_C8 ⟨true, true, true, false, true⟩ [⟨"c".data, []⟩] (by decide)).2 rfl⟩

theorem is_greeting_of_whitespace (q : Str) (h : pyStrip q = []) : is_greeting q = false := by
  have hall : ∀ c ∈ q, isPySpace c := (pyStrip_eq_nil_iff q).mp h
  have hmap : q.map pyLower = q := by
    have h1 : q.map pyLower = q.map id :=
      List.map_congr_left (fun a ha => pyLower_of_space (hall a ha))
    rw [h1, List.map_id]
  unfold is_greeting
  rw [hmap, h]
  decide

/-- C3: an empty or whitespace-only question is answered immediately with
the fixed prompt-for-input message, no sources, zero retrieved documents
and zero processing time, and neither the retriever nor the generation
manager is invoked. -/
theorem claim_C3 (env : QAEnv) (question : Str) (top_k : Option Nat)
    (h : ∀ c ∈ question, isPySpace c = true) :
    answer_question env question top_k =
      ({ question := question,
         answer := "Por favor, faça uma pergunta válida.".data,
         sources := [],
         metadata := ⟨0, 0, false, none⟩ }, ⟨false, false⟩) := by
  have hstrip : pyStrip question = [] := (pyStrip_eq_nil_iff question).mpr h
  unfold answer_question
  rw [if_pos (Or.inr (by rw [hstrip]; rfl))]

/-- Witness for C3 on a single-space question. -/
theorem claim_C3_witness :
    answer_question
        ⟨⟨true, true, .found []⟩, .timesOut, ⟨"local".data, none⟩, 0, "padrao".data, 1, 2⟩
        " ".data none =
      ({ question := " ".data,
         answer := "Por favor, faça uma pergunta válida.".data,
         sources := [],
         metadata := ⟨0, 0, false, none⟩ }, ⟨false, false⟩) :=
  claim_C3 ⟨⟨true, true, .found []⟩, .timesOut, ⟨"local".data, none⟩, 0, "padrao".data, 1, 2⟩
    " ".data none (by decide)

/-- C4: a non-empty question matching a greeting pattern is answered with
one of the canned greeting responses, no sources and zero retrieved
documents, and neither the retriever nor the generation manager is
invoked. -/
theorem claim_C4 (env : QAEnv) (question : Str) (top_k : Option Nat)
    (hne : question ≠ []) (hg : is_greeting question = true) :
    (answer_question env question top_k).1.answer ∈ GREETING_RESPONSES ∧
    (answer_question env question top_k).1.sources = [] ∧
    (answer_question env question top_k).1.metadata.retrieved_documents = 0 ∧
    (answer_question env question top_k).2 = ⟨false, false⟩ := by
  have hstrip : pyStrip question ≠ [] := by
    intro hs
    rw [is_greeting_of_whitespace question hs] at hg
    exact Bool.noConfusion hg
  have hcond : ¬(question = [] ∨ (pyStrip question).length = 0) := by
    rintro (hq | hq)
    · exact hne hq
    · exact hstrip (List.length_eq_zero.mp hq)
  unfold answer_question
  rw [if_neg hcond, if_pos hg]
  exact ⟨choice_mem _ _ (by decide), rfl, rfl, rfl⟩

/-- Witness for C4 on the question from the specification's example. -/
theorem claim_C4_witness :
    (answer_question
        ⟨⟨true, true, .found []⟩, .timesOut, ⟨"local".data, none⟩, 0, "padrao".data, 7, 9⟩
        "olá, tudo bem?".data none).1.answer ∈ GREETING_RESPONSES ∧
    (answer_question
        ⟨⟨true, true, .found []⟩, .timesOut, ⟨"local".data, none⟩, 0, "padrao".data, 7, 9⟩
        "olá, tudo bem?".data none).1.sources = [] ∧
    (answer_question
        ⟨⟨true, true, .found []⟩, .timesOut, ⟨"local".data, none⟩, 0, "padrao".data, 7, 9⟩
        "olá, tudo bem?".data none).1.metadata.retrieved_documents = 0 ∧
    (answer_question
        ⟨⟨true, true, .found []⟩, .timesOut, ⟨"local".data, none⟩, 0, "padrao".data, 7, 9⟩
        "olá, tudo bem?".data none).2 = ⟨false, false⟩ :=
  claim_C4 ⟨⟨true, true, .found []⟩, .timesOut, ⟨"local".data, none⟩, 0, "padrao".data, 7, 9⟩
    "olá, tudo bem?".data none (by decide) (by decide)

/-- C5: for a non-empty, non-greeting question whose retrieval yields no
documents — because the index is absent and the lazy load fails, because
the underlying search raises, or because it returns an empty list — the
orchestrator returns the fixed no-relevant-information answer with no
sources and zero retrieved documents, and generation is never invoked. -/
theorem claim_C5 (env : QAEnv) (question : Str) (top_k : Option Nat)
    (hne : pyStrip question ≠ [])
    (hg : is_greeting question = false)
    (hempty : (env.retr.alreadyInit = false ∧ env.retr.lazyInitOk = false) ∨
      (∃ m, env.retr.outcome = .raises m) ∨ env.retr.outcome = .found []) :
    retriever_search env.retr = [] ∧
    answer_question env question top_k =
      ({ question := question,
         answer := "Não encontrei informações relevantes para responder a esta pergunta nos documentos carregados.".data,
         sources := [],
         metadata := ⟨0, env.elapsedMs, false, none⟩ }, ⟨true, false⟩) := by
  have hdocs : get_relevant_documents env.retr = [] := by
    unfold get_relevant_documents
    rcases hempty with ⟨h1, h2⟩ | ⟨m, hm⟩ | hf
    · rw [h1, h2]
      rfl
    · rw [hm]
      split <;> rfl
    · rw [hf]
      split <;> rfl
  have hsearch : retriever_search env.retr = [] := by
    unfold retriever_search
    rw [hdocs, if_pos rfl]
  refine ⟨hsearch, ?_⟩
  have hq : question ≠ [] := by
    intro hh
    rw [hh] at hne
    exact hne rfl
  have hcond : ¬(question = [] ∨ (pyStrip question).length = 0) := by
    rintro (hh | hh)
    · exact hq hh
    · exact hne (List.length_eq_zero.mp hh)
  unfold answer_question
  rw [if_neg hcond, hg, if_neg Bool.false_ne_true]
  simp only [hsearch, eq_self_iff_true, if_true]

/-- Witness for C5 on a substantive question with an absent index. -/
theorem claim_C5_witness :
    retriever_search
        (QAEnv.mk ⟨false, false, .found []⟩ .timesOut ⟨"local".data, none⟩ 0 "padrao".data 1 2).retr
      = [] ∧
    answer_question
        ⟨⟨false, false, .found []⟩, .timesOut, ⟨"local".data, none⟩, 0, "padrao".data, 1, 2⟩
        "qual o valor total?".data none =
      ({ question := "qual o valor total?".data,
         answer := "Não encontrei informações relevantes para responder a esta pergunta nos documentos carregados.".data,
         sources := [],
         metadata := ⟨0, 2, false, none⟩ }, ⟨true, false⟩) :=
  claim_C5 ⟨⟨false, false, .found []⟩, .timesOut, ⟨"local".data, none⟩, 0, "padrao".data, 1, 2⟩
    "qual o valor total?".data none (by decide) (by decide) (Or.inl ⟨rfl, rfl⟩)

theorem p1_matches_oi {prev : Option Char} {rest : Str}
    (hp : isWordO prev = false) (hr : headWordB rest = false) :
    matchesFrom P1 prev ('o' :: 'i' :: rest) ≠ [] := by
  apply List.ne_nil_of_mem (a := (some 'i', rest))
  apply mem_matchesFrom_cat (q := prev) (t := 'o' :: 'i' :: rest)
  · apply mem_wb
    rw [hp]
    show (false : Bool) ≠ isWordChar 'o'
    decide
  · apply mem_matchesFrom_cat (q := some 'i') (t := rest)
    · apply mem_alt_right
      apply mem_alt_right
      apply mem_alt_left
      exact lit_matches "oi".data prev rest
    · apply mem_wb
      rw [hr]
      decide

theorem p1_matches_hi {prev : Option Char} {rest : Str}
    (hp : isWordO prev = false) (hr : headWordB rest = false) :
    matchesFrom P1 prev ('h' :: 'i' :: rest) ≠ [] := by
  apply List.ne_nil_of_mem (a := (some 'i', rest))
  apply mem_matchesFrom_cat (q := prev) (t := 'h' :: 'i' :: rest)
  · apply mem_wb
    rw [hp]
    show (false : Bool) ≠ isWordChar 'h'
    decide
  · apply mem_matchesFrom_cat (q := some 'i') (t := rest)
    · apply mem_alt_right
      apply mem_alt_right
      apply mem_alt_right
      apply mem_alt_right
      apply mem_alt_right
      apply mem_alt_left
      exact lit_matches "hi".data prev rest
    · apply mem_wb
      rw [hr]
      decide

theorem p1_matches_hello {prev : Option Char} {rest : Str}
    (hp : isWordO prev = false) (hr : headWordB rest = false) :
    matchesFrom P1 prev ('h' :: 'e' :: 'l' :: 'l' :: 'o' :: rest) ≠ [] := by
  apply List.ne_nil_of_mem (a := (some 'o', rest))
  apply mem_matchesFrom_cat (q := prev) (t := 'h' :: 'e' :: 'l' :: 'l' :: 'o' :: rest)
  · apply mem_wb
    rw [hp]
    show (false : Bool) ≠ isWordChar 'h'
    decide
  · apply mem_matchesFrom_cat (q := some 'o') (t := rest)
    · apply mem_alt_right
      apply mem_alt_right
      apply mem_alt_right
      apply mem_alt_right
      apply mem_alt_left
      exact lit_matches "hello".data prev rest
    · apply mem_wb
      rw [hr]
      decide

theorem p2_matches_bom_dia {prev : Option Char} {rest : Str}
    (hp : isWordO prev = false) (hr : headWordB rest = false) :
    matchesFrom P2 prev ('b' :: 'o' :: 'm' :: ' ' :: 'd' :: 'i' :: 'a' :: rest) ≠ [] := by
  apply List.ne_nil_of_mem (a := (some 'a', rest))
  apply mem_matchesFrom_cat (q := prev) (t := 'b' :: 'o' :: 'm' :: ' ' :: 'd' :: 'i' :: 'a' :: rest)
  · apply mem_wb
    rw [hp]
    show (false : Bool) ≠ isWordChar 'b'
    decide
  · apply mem_matchesFrom_cat (q := some 'a') (t := rest)
    · apply mem_alt_left
      apply mem_matchesFrom_cat (q := some 'm') (t := ' ' :: 'd' :: 'i' :: 'a' :: rest)
      · exact lit_matches "bom".data prev (' ' :: 'd' :: 'i' :: 'a' :: rest)
      · apply mem_matchesFrom_cat (q := some ' ') (t := 'd' :: 'i' :: 'a' :: rest)
        · exact star_one (by decide) (some 'm')
        · exact lit_matches "dia".data (some ' ') rest
    · apply mem_wb
      rw [hr]
      decide

theorem p3_matches_tudo_bem {prev : Option Char} {rest : Str}
    (hp : isWordO prev = false) (hr : headWordB rest = false) :
    matchesFrom P3 prev ('t' :: 'u' :: 'd' :: 'o' :: ' ' :: 'b' :: 'e' :: 'm' :: rest) ≠ [] := by
  apply List.ne_nil_of_mem (a := (some 'm', rest))
  apply mem_matchesFrom_cat (q := prev)
    (t := 't' :: 'u' :: 'd' :: 'o' :: ' ' :: 'b' :: 'e' :: 'm' :: rest)
  · apply mem_wb
    rw [hp]
    show (false : Bool) ≠ isWordChar 't'
    decide
  · apply mem_matchesFrom_cat (q := some 'm') (t := rest)
    · apply mem_alt_left
      apply mem_matchesFrom_cat (q := some 'o') (t := ' ' :: 'b' :: 'e' :: 'm' :: rest)
      · exact lit_matches "tudo".data prev (' ' :: 'b' :: 'e' :: 'm' :: rest)
      · apply mem_matchesFrom_cat (q := some ' ') (t := 'b' :: 'e' :: 'm' :: rest)
        · exact star_one (by decide) (some 'o')
        · exact lit_matches "bem".data (some ' ') rest
    · apply mem_wb
      rw [hr]
      decide

/-- The standalone greeting words named by claim C9. -/
def C9_WORDS : List Str :=
  ["oi".data, "hi".data, "hello".data, "bom dia".data, "tudo bem".data]

/-- C9: any question whose lower-cased, stripped text contains one of the
greeting words as a standalone word (non-word characters or string edges on
both sides) is classified as a greeting — the patterns are searched
unanchored, so a substantive question merely mentioning such a word is
short-circuited before retrieval or generation. -/
theorem claim_C9 (q a b w : Str) (hw : w ∈ C9_WORDS)
    (hsplit : pyStrip (q.map pyLower) = a ++ (w ++ b))
    (ha : isWordO (lastO none a) = false) (hb : headWordB b = false) :
    is_greeting q = true := by
  unfold is_greeting
  simp only [hsplit]
  apply List.any_eq_true.mpr
  simp only [C9_WORDS, List.mem_cons, List.not_mem_nil, or_false] at hw
  rcases hw with hww | hww | hww | hww | hww
  · subst hww
    refine ⟨P1, by simp [GREETING_PATTERNS], ?_⟩
    exact searchFrom_of_split P1 a none ("oi".data ++ b) (p1_matches_oi ha hb)
  · subst hww
    refine ⟨P1, by simp [GREETING_PATTERNS], ?_⟩
    exact searchFrom_of_split P1 a none ("hi".data ++ b) (p1_matches_hi ha hb)
  · subst hww
    refine ⟨P1, by simp [GREETING_PATTERNS], ?_⟩
    exact searchFrom_of_split P1 a none ("hello".data ++ b) (p1_matches_hello ha hb)
  · subst hww
    refine ⟨P2, by simp [GREETING_PATTERNS], ?_⟩
    exact searchFrom_of_split P2 a none ("bom dia".data ++ b) (p2_matches_bom_dia ha hb)
  · subst hww
    refine ⟨P3, by simp [GREETING_PATTERNS], ?_⟩
    exact searchFrom_of_split P3 a none ("tudo bem".data ++ b) (p3_matches_tudo_bem ha hb)

/-- Witness for C9: a substantive document question mentioning "hello" is
classified as a greeting. -/
theorem claim_C9_witness :
    is_greeting "o relatório diz hello sobre o prazo".data = true :=
  claim_C9 "o relatório diz hello sobre o prazo".data "o relatório diz ".data
    " sobre o prazo".data "hello".data (by decide) (by decide) (by decide) (by decide)

/-- C10: `process_document` reports success exactly when validation
passes, the extension is supported, and the extracted text is non-empty
and free of the `[Erro` / `[Biblioteca` marker prefixes; every error
result carries an empty text field, and a success result carries the
extracted text — so genuine content beginning with a marker prefix is
reported as an extraction failure. -/
theorem status_error_ne_success : ¬(("error".data : Str) = "success".data) := by decide

theorem status_success_ne_error : ¬(("success".data : Str) = "error".data) := by decide

theorem claim_C10 (fe : FileEnv) (ext : Str) (exo : ExtractOutcome) :
    ((process_document fe ext exo).status = "success".data ↔
      (validate_file fe).1 = true ∧ ext ∈ SUPPORTED_EXTS ∧
        ∃ t, exo = .extracted t ∧ t ≠ [] ∧ startsWithL "[Erro".data t = false ∧
          startsWithL "[Biblioteca".data t = false) ∧
    ((process_document fe ext exo).status = "error".data →
      (process_document fe ext exo).text = []) ∧
    (∀ t, (process_document fe ext exo).status = "success".data → exo = .extracted t →
      (process_document fe ext exo).text = t) := by
  by_cases hvb : (validate_file fe).1 = false
  · have hred : process_document fe ext exo = ⟨"error".data, (validate_file fe).2, []⟩ := by
      simp only [process_document]
      rw [hvb, if_pos rfl]
    rw [hred]
    refine ⟨?_, fun _ => rfl, fun t hs _ => absurd hs status_error_ne_success⟩
    constructor
    · intro hs
      exact absurd hs status_error_ne_success
    · rintro ⟨hv, _⟩
      rw [hvb] at hv
      exact Bool.noConfusion hv
  · have hvb' : (validate_file fe).1 = true := by
      cases hb : (validate_file fe).1
      · exact absurd hb hvb
      · rfl
    by_cases hext : ext ∈ SUPPORTED_EXTS
    · cases exo with
      | raises m =>
          have hred : process_document fe ext (.raises m) =
              ⟨"error".data, "Erro ao processar documento: ".data ++ m, []⟩ := by
            simp only [process_document]
            rw [hvb', if_neg (by decide), if_pos hext]
          rw [hred]
          refine ⟨?_, fun _ => rfl, fun t hs _ => absurd hs status_error_ne_success⟩
          constructor
          · intro hs
            exact absurd hs status_error_ne_success
          · rintro ⟨_, _, t, ht, _⟩
            exact ExtractOutcome.noConfusion ht
      | extracted t =>
          by_cases hmark : t = [] ∨ startsWithL "[Erro".data t = true ∨
              startsWithL "[Biblioteca".data t = true
          · have hred : process_document fe ext (.extracted t) =
                ⟨"error".data,
                 "Falha na extração de texto: ".data ++
                   (if t = [] then "Texto vazio".data else t), []⟩ := by
              simp only [process_document]
              rw [hvb', if_neg (by decide), if_pos hext, if_pos hmark]
            rw [hred]
            refine ⟨?_, fun _ => rfl, fun t' hs _ => absurd hs status_error_ne_success⟩
            constructor
            · intro hs
              exact absurd hs status_error_ne_success
            · rintro ⟨_, _, t', ht', hne, hm1, hm2⟩
              cases ht'
              rcases hmark with hh | hh | hh
              · exact absurd hh hne
              · rw [hm1] at hh
                exact Bool.noConfusion hh
              · rw [hm2] at hh
                exact Bool.noConfusion hh
          · have hred : process_document fe ext (.extracted t) =
                ⟨"success".data, "Documento processado com sucesso".data, t⟩ := by
              simp only [process_document]
              rw [hvb', if_neg (by decide), if_pos hext, if_neg hmark]
            rw [hred]
            push_neg at hmark
            obtain ⟨hne, hm1, hm2⟩ := hmark
            refine ⟨?_, fun hs => absurd hs status_success_ne_error, fun t' _ ht' => ?_⟩
            · constructor
              · intro _
                exact ⟨hvb', hext, t, rfl, hne, Bool.eq_false_iff.mpr hm1,
                  Bool.eq_false_iff.mpr hm2⟩
              · intro _
                rfl
            · cases ht'
              rfl
    · have hred : process_document fe ext exo =
          ⟨"error".data, "Formato não suportado: ".data ++ ext, []⟩ := by
        simp only [process_document]
        rw [hvb', if_neg (by decide), if_neg hext]
      rw [hred]
      refine ⟨?_, fun _ => rfl, fun t hs _ => absurd hs status_error_ne_success⟩
      constructor
      · intro hs
        exact absurd hs status_error_ne_success
      · rintro ⟨_, hh, _⟩
        exact absurd hh hext

/-- Witness for C10: a valid text file whose genuine content begins with
the `[Erro` marker is classified as an extraction failure with an empty
text field. -/
theorem claim_C10_witness :
    (process_document ⟨true, true, 100, some "text/plain".data⟩ ".txt".data
        (.extracted "[Erro que o cliente relatou] detalhes".data)).status = "error".data ∧
    (process_document ⟨true, true, 100, some "text/plain".data⟩ ".txt".data
        (.extracted "[Erro que o cliente relatou] detalhes".data)).text = [] :=
  ⟨by decide,
   (claim_C10 ⟨true, true, 100, some "text/plain".data⟩ ".txt".data
      (.extracted "[Erro que o cliente relatou] detalhes".data)).2.1 (by decide)⟩

end GesonelBot
